/-
Verification of the google-skill browser-automation scripts
(`scripts/ask_gemini.py`, `scripts/generate_image.py`,
`scripts/browser_utils.py`) against their design specification.

The Python code is shallowly embedded: the nondeterministic environment
(which selectors match, which page operations raise, what text the page
shows on each 1-second poll) is passed in explicitly, and each script
becomes a pure function from that environment to its result together with
a trace of the externally visible events it performed.
-/
import Mathlib

namespace GoogleSkill

/-! ## Response-stability polling (`ask_gemini.py`, lines 176–215)

The loop keeps `stable_count`, `last_text` and `answer` across poll ticks;
inside one tick it iterates over the eight `GEMINI_RESPONSE_SELECTORS`,
and for each selector that matches it reads the last element's stripped
inner text.  A sample is accepted only when it is non-empty, differs from
the submitted question, and is longer than 10 characters
(`if text and text != question and len(text) > 10`).  An accepted sample
equal to `last_text` increments `stable_count`; once it reaches 3 the text
becomes the answer.  A differing accepted sample resets the counter to 0.
-/

/-- The mutable state of the response polling loop of `ask_gemini`:
`stable_count`, `last_text` and `answer`. -/
structure PollState where
  stableCount : Nat
  lastText : Option String
  answer : Option String
deriving Repr, DecidableEq

/-- Initial polling state: `stable_count = 0`, `last_text = None`,
`answer = None` (lines 176–178). -/
def initPollState : PollState := ⟨0, none, none⟩

/-- The acceptance filter of line 196:
`if text and text != question and len(text) > 10`. -/
def validText (question text : String) : Bool :=
  text ≠ "" && text ≠ question && text.length > 10

/-- One selector's contribution inside a poll tick (lines 184–210).
`sample = none` models a selector that matched no elements or raised
(the `except` clause just continues); `sample = some text` is the stripped
inner text of the last matched element.  Once `answer` is set the
remaining selectors of the tick are skipped (the `break` at line 213 fires
right after the assignment). -/
def pollStep (question : String) (s : PollState) (sample : Option String) : PollState :=
  if s.answer.isSome then s
  else
    match sample with
    | none => s
    | some text =>
      if validText question text then
        if s.lastText = some text then
          if s.stableCount + 1 ≥ 3 then
            { s with stableCount := s.stableCount + 1, answer := some text }
          else
            { s with stableCount := s.stableCount + 1 }
        else
          { stableCount := 0, lastText := some text, answer := s.answer }
      else s

/-- One poll tick: the `for selector in GEMINI_RESPONSE_SELECTORS` loop.
The tick is the list of per-selector samples; the counters are shared
across all selectors of the tick. -/
def pollTick (question : String) (s : PollState) (tick : List (Option String)) : PollState :=
  tick.foldl (pollStep question) s

/-- The `while time.time() < deadline` loop (lines 182–215): each list
element is one tick's per-selector samples; the loop stops as soon as an
answer is recorded (`if answer: break`). -/
def runPoll (question : String) (s : PollState) (ticks : List (List (Option String))) :
    PollState :=
  ticks.foldl (fun st tick => if st.answer.isSome then st else pollTick question st tick) s

/-- The value the polling phase of `ask_gemini` produces: the recorded
`answer`, or `none` on deadline expiry (timeout). -/
def askGeminiPoll (question : String) (ticks : List (List (Option String))) : Option String :=
  (runPoll question initPollState ticks).answer

example : askGeminiPoll "q" [[some "HelloWorld12"], [some "HelloWorld12"],
    [some "HelloWorld12"], [some "HelloWorld12"]] = some "HelloWorld12" := by decide

example : askGeminiPoll "q" [[some "HelloWorld12"], [some "HelloWorld12"],
    [some "HelloWorld12"]] = none := by decide

example : askGeminiPoll "q"
    [[some "HelloWorld12", some "HelloWorld12", some "HelloWorld12", some "HelloWorld12"]] =
    some "HelloWorld12" := by decide

/-! ## Input delivery (`ask_gemini.py` lines 140–167, `generate_image.py` lines 128–172) -/

/-- The three text-delivery mechanisms of the scripts: per-character typing
(`element.type`), bulk value assignment (`element.fill`), and scripted
assignment with dispatched input/change events (`page.evaluate`). -/
inductive TypingMethod
  | typeChars
  | fill
  | jsAssign
deriving Repr, DecidableEq

/-- Which delivery mechanisms would succeed on the current page; `false`
models the corresponding Python call raising. -/
structure DeliverEnv where
  typeOk : Bool
  fillOk : Bool
  jsOk : Bool
deriving Repr, DecidableEq

/-- The typing fallback chain of `ask_gemini` (lines 140–167): method 1 is
click + `type(question, delay=50)`; on exception method 2 `fill(question)`;
on exception method 3 `page.evaluate(...)`; exhaustion returns `None`.
The question text itself is never consulted to pick a method.  Returns the
ordered list of attempted methods and whether delivery succeeded. -/
def deliverAsk (question : String) (env : DeliverEnv) : List TypingMethod × Bool :=
  if env.typeOk then ([TypingMethod.typeChars], true)
  else if env.fillOk then ([TypingMethod.typeChars, TypingMethod.fill], true)
  else if env.jsOk then
    ([TypingMethod.typeChars, TypingMethod.fill, TypingMethod.jsAssign], true)
  else ([TypingMethod.typeChars, TypingMethod.fill, TypingMethod.jsAssign], false)

/-- The method `generate_image` uses to enter the prompt (lines 136–167):
prompts longer than 100 characters use Playwright `fill` on the inner
input element when one is found (`actualInputFound`), falling back to fast
per-character typing otherwise; prompts of at most 100 characters are
always typed per character. -/
def genTypeMethod (prompt : String) (actualInputFound : Bool) : TypingMethod :=
  if prompt.length > 100 then
    if actualInputFound then TypingMethod.fill else TypingMethod.typeChars
  else TypingMethod.typeChars

/-! ## Selector resolution (`ask_gemini.py` lines 95–108, `generate_image.py`
lines 88–100 and 115–122)

Each script walks an ordered candidate list; per candidate it performs a
bounded `wait_for_selector(..., state="visible")` inside `try`, breaking on
the first success; a timeout or any other exception is caught and the next
candidate is tried.  A candidate's outcome is modelled as `Option α`:
`some e` is a visible match within the per-candidate wait, `none` is a
timeout or a raised error. -/

/-- First-match resolution over the ordered candidate outcomes, returning
the winning candidate's position together with its element. -/
def resolveFirst {α : Type} : List (Option α) → Option (Nat × α)
  | [] => none
  | none :: rest => (resolveFirst rest).map (fun p => (p.1 + 1, p.2))
  | some e :: _ => some (0, e)

example : resolveFirst [none, some 5, some 9] = some (1, 5) := by decide

/-! ## Artifact retrieval (`generate_image.py` lines 253–319) -/

/-- The environment of one `generated-image` container in the download
loop: whether its download button is found, whether the triggered download
completes without raising, whether an `img.image` element is found for the
screenshot fallback, and whether taking that screenshot raises. -/
structure Container where
  hasDownloadButton : Bool
  downloadOk : Bool
  hasImgElem : Bool
  screenshotOk : Bool
deriving Repr, DecidableEq

/-- A saved output of the image flow: a downloaded file or a screenshot
capture, tagged with the container's ordinal index. -/
inductive Artifact
  | downloaded (idx : Nat)
  | captured (idx : Nat)
deriving Repr, DecidableEq

/-- Processing of one container (lines 262–312): a found download button
that completes yields a downloaded file; a missing button, or a raising
download, degrades to a screenshot of `img.image` when that element exists
and the capture itself does not raise; otherwise the container yields
nothing.  Exceptions never escape the loop body. -/
def retrieveOne (i : Nat) (c : Container) : Option Artifact :=
  if c.hasDownloadButton then
    if c.downloadOk then some (Artifact.downloaded i)
    else if c.hasImgElem && c.screenshotOk then some (Artifact.captured i)
    else none
  else
    if c.hasImgElem && c.screenshotOk then some (Artifact.captured i)
    else none

/-- The `for i, gen_img in enumerate(generated_images)` loop, collecting
the artifacts the containers produce, in order, starting at index `k`. -/
def retrieveArtifacts : Nat → List Container → List Artifact
  | _, [] => []
  | k, c :: rest =>
    match retrieveOne k c with
    | some a => a :: retrieveArtifacts (k + 1) rest
    | none => retrieveArtifacts (k + 1) rest

/-- The overall retrieval result (lines 314–319): the list of saved paths
when at least one artifact was produced, `None` otherwise. -/
def retrieve (cs : List Container) : Option (List Artifact) :=
  if (retrieveArtifacts 0 cs).isEmpty then none else some (retrieveArtifacts 0 cs)

example : retrieve [⟨true, true, true, true⟩, ⟨true, false, true, true⟩,
    ⟨true, true, true, true⟩] =
    some [Artifact.downloaded 0, Artifact.captured 1, Artifact.downloaded 2] := by decide

example : retrieve [⟨true, false, false, true⟩] = none := by decide

/-! ## Image-count stability polling (`generate_image.py` lines 202–240)

The same stability pattern as the text flow, applied to the number of
fully-loaded generated images (those whose `src` points at
`googleusercontent.com`).  The counters are again shared across the three
`IMAGE_RESULT_SELECTORS` within one attempt. -/

/-- State of the image polling loop: `stable_count`, `last_image_count`
(initialised to 0) and the recorded `images_found` count. -/
structure GenPollState where
  stableCount : Nat
  lastCount : Nat
  found : Option Nat
deriving Repr, DecidableEq

/-- One selector's contribution inside an attempt (lines 206–235).
`sample = none`: no elements matched or the selector raised; `some n`: the
selector matched elements of which `n` carry a `googleusercontent.com`
source.  The stability check runs only when `n > 0` (`if loaded_images:`). -/
def genPollStep (s : GenPollState) (sample : Option Nat) : GenPollState :=
  if s.found.isSome then s
  else
    match sample with
    | none => s
    | some n =>
      if n > 0 then
        if n = s.lastCount then
          if s.stableCount + 1 ≥ 3 then
            { s with stableCount := s.stableCount + 1, found := some n }
          else
            { s with stableCount := s.stableCount + 1 }
        else
          { stableCount := 0, lastCount := n, found := s.found }
      else s

/-- The `for attempt in range(30)` loop: each tick is the per-selector
loaded-image counts of one attempt; the loop stops once `images_found` is
recorded. -/
def genPoll (ticks : List (List (Option Nat))) : Option Nat :=
  (ticks.foldl
    (fun (st : GenPollState) (tick : List (Option Nat)) =>
      if st.found.isSome then st else tick.foldl genPollStep st)
    (⟨0, 0, none⟩ : GenPollState)).found

example : genPoll [[some 2], [some 2], [some 2], [some 2]] = some 2 := by decide

/-! ## Task orchestration

Each script is a straight-line composition inside
`try ... except ... finally`, with the authentication check before the
`try`.  The environment fixes every external outcome; the function returns
the script's result and the trace of externally visible events, with the
`finally` block's cleanup appended on every path that entered the `try`. -/

/-- Externally visible events of a task invocation. -/
inductive Event
  | startPlaywright
  | launchContext
  | gotoPage
  | findInput
  | deliverPrompt (m : TypingMethod)
  | submit
  | closeContext
  | stopPlaywright
deriving Repr, DecidableEq

/-- The cleanup the `finally` block performs: `context.close()` when a
context was launched, then `playwright.stop()` when playwright was
started (each wrapped in its own `try/except pass`). -/
def cleanupEvents (contextOpened playwrightStarted : Bool) : List Event :=
  (if contextOpened then [Event.closeContext] else []) ++
  (if playwrightStarted then [Event.stopPlaywright] else [])

/-- Environment of one `ask_gemini` invocation. -/
structure AskEnv where
  authenticated : Bool
  startOk : Bool
  launchOk : Bool
  gotoOk : Bool
  inputCandidates : List (Option Unit)
  workingCandidates : List Bool
  deliver : DeliverEnv
  responseTicks : List (List (Option String))
deriving Repr

/-- The body of `ask_gemini`'s `try` block (lines 67–228): returns the
result, the events performed inside the block, and whether a context /
playwright instance was live when the block exited (normally or by an
exception caught at line 230). -/
def askTryBody (question : String) (env : AskEnv) :
    Option String × List Event × Bool × Bool :=
  if !env.startOk then (none, [], false, false)
  else if !env.launchOk then (none, [Event.startPlaywright], false, true)
  else if !env.gotoOk then
    (none, [Event.startPlaywright, Event.launchContext], true, true)
  else
    let ev := [Event.startPlaywright, Event.launchContext, Event.gotoPage]
    match resolveFirst env.inputCandidates with
    | none => (none, ev ++ [Event.findInput], true, true)
    | some _ =>
      let ev := ev ++ [Event.findInput]
      match env.workingCandidates.findIdx? (fun b => b) with
      | none => (none, ev, true, true)
      | some _ =>
        let d := deliverAsk question env.deliver
        let ev := ev ++ d.1.map Event.deliverPrompt
        if !d.2 then (none, ev, true, true)
        else
          let ev := ev ++ [Event.submit]
          (askGeminiPoll question (env.responseTicks.take 120), ev, true, true)

/-- `ask_gemini(question, headless)`: authentication is checked before the
`try` block (lines 56–60, returning `None` with no browser work); on every
path that entered the block the `finally` cleanup runs. -/
def ask_gemini (question : String) (env : AskEnv) : Option String × List Event :=
  if !env.authenticated then (none, [])
  else
    let r := askTryBody question env
    (r.1, r.2.1 ++ cleanupEvents r.2.2.1 r.2.2.2)

/-- The process exit code of `ask_gemini.py`'s `main` (lines 266–282):
0 when the returned answer is truthy, 1 otherwise. -/
def askExitCode (question : String) (env : AskEnv) : Nat :=
  match (ask_gemini question env).1 with
  | some a => if a = "" then 1 else 0
  | none => 1

/-- Environment of one `generate_image` invocation. -/
structure GenEnv where
  authenticated : Bool
  startOk : Bool
  launchOk : Bool
  gotoOk : Bool
  imageButtonCandidates : List (Option Unit)
  inputCandidates : List (Option Unit)
  actualInputFound : Bool
  typingOk : Bool
  waitGeneratedOk : Bool
  imageTicks : List (List (Option Nat))
  containers : List Container
deriving Repr

/-- The body of `generate_image`'s `try` block (lines 64–319): image-mode
button (optional), input discovery, prompt entry (length-dependent method),
submit, `generated-image` wait, count-stability polling, then the download
loop over the containers. -/
def genTryBody (prompt : String) (env : GenEnv) :
    Option (List Artifact) × List Event × Bool × Bool :=
  if !env.startOk then (none, [], false, false)
  else if !env.launchOk then (none, [Event.startPlaywright], false, true)
  else if !env.gotoOk then
    (none, [Event.startPlaywright, Event.launchContext], true, true)
  else
    let ev := [Event.startPlaywright, Event.launchContext, Event.gotoPage]
    match resolveFirst env.inputCandidates with
    | none => (none, ev ++ [Event.findInput], true, true)
    | some _ =>
      let ev := ev ++ [Event.findInput]
      let m := genTypeMethod prompt env.actualInputFound
      if !env.typingOk then (none, ev ++ [Event.deliverPrompt m], true, true)
      else
        let ev := ev ++ [Event.deliverPrompt m, Event.submit]
        if !env.waitGeneratedOk then (none, ev, true, true)
        else
          match genPoll (env.imageTicks.take 30) with
          | none => (none, ev, true, true)
          | some _ => (retrieve env.containers, ev, true, true)

/-- `generate_image(prompt, output_dir, headless, debug)`: authentication
is checked before the `try` block (lines 53–57); the `finally` cleanup
runs on every path that entered the block. -/
def generate_image (prompt : String) (env : GenEnv) :
    Option (List Artifact) × List Event :=
  if !env.authenticated then (none, [])
  else
    let r := genTryBody prompt env
    (r.1, r.2.1 ++ cleanupEvents r.2.2.1 r.2.2.2)

/-- The process exit code of `generate_image.py`'s `main` (lines 359–377):
0 when a non-empty path list is returned, 1 otherwise. -/
def genExitCode (prompt : String) (env : GenEnv) : Nat :=
  match (generate_image prompt env).1 with
  | some l => if l.isEmpty then 1 else 0
  | none => 1

/-! ## Helper lemmas about the polling loop -/

lemma validText_ne_question (q t : String) (h : validText q t = true) : t ≠ q := by
  unfold validText at h
  simp only [Bool.and_eq_true, decide_eq_true_eq] at h
  exact h.1.2

lemma pollStep_answer_ne (q : String) (s : PollState) (sample : Option String)
    (h : ∀ b, s.answer = some b → b ≠ q) :
    ∀ b, (pollStep q s sample).answer = some b → b ≠ q := by
  intro b hb
  unfold pollStep at hb
  split at hb
  · exact h b hb
  · split at hb
    · exact h b hb
    next text =>
      split at hb
      next hvalid =>
        split at hb
        · split at hb
          · simp only at hb
            rw [Option.some_inj] at hb
            exact hb ▸ validText_ne_question q text hvalid
          · exact h b hb
        · exact h b hb
      · exact h b hb

lemma pollTick_answer_ne (q : String) (tick : List (Option String)) :
    ∀ s : PollState, (∀ b, s.answer = some b → b ≠ q) →
      ∀ b, (pollTick q s tick).answer = some b → b ≠ q := by
  induction tick with
  | nil => intro s h; exact h
  | cons x xs ih =>
    intro s h
    exact ih (pollStep q s x) (pollStep_answer_ne q s x h)

lemma runPoll_answer_ne (q : String) (ticks : List (List (Option String))) :
    ∀ s : PollState, (∀ b, s.answer = some b → b ≠ q) →
      ∀ b, (runPoll q s ticks).answer = some b → b ≠ q := by
  induction ticks with
  | nil => intro s h; exact h
  | cons tick rest ih =>
    intro s h
    show ∀ b, (runPoll q (if s.answer.isSome then s else pollTick q s tick) rest).answer
      = some b → b ≠ q
    split
    · exact ih s h
    · exact ih (pollTick q s tick) (pollTick_answer_ne q tick s h)

lemma pollStep_accept_new (q t : String) (hv : validText q t = true) (s : PollState)
    (hans : s.answer = none) (hlast : s.lastText ≠ some t) :
    pollStep q s (some t) = ⟨0, some t, none⟩ := by
  unfold pollStep
  rw [hans]
  simp only [Option.isSome_none, Bool.false_eq_true, if_false, hv, if_true]
  rw [if_neg hlast]

lemma pollStep_confirm (q t : String) (hv : validText q t = true) (c : Nat)
    (hc : c + 1 < 3) :
    pollStep q ⟨c, some t, none⟩ (some t) = ⟨c + 1, some t, none⟩ := by
  unfold pollStep
  simp [hv, Nat.not_le_of_lt hc]

lemma pollStep_finalize (q t : String) (hv : validText q t = true) (c : Nat)
    (hc : c + 1 ≥ 3) :
    pollStep q ⟨c, some t, none⟩ (some t) = ⟨c + 1, some t, some t⟩ := by
  unfold pollStep
  simp [hv, hc]

lemma runPoll_chain_ne (q : String) :
    ∀ (ts : List String) (t : String) (c : Nat),
      (∀ u ∈ ts, validText q u = true) → List.Chain (· ≠ ·) t ts →
      (runPoll q ⟨c, some t, none⟩ (ts.map fun u => [some u])).answer = none := by
  intro ts
  induction ts with
  | nil =>
    intro t c _ _
    simp [runPoll]
  | cons u us ih =>
    intro t c hv hch
    rw [List.chain_cons] at hch
    have hvu : validText q u = true := hv u (by simp)
    have hstep : pollStep q ⟨c, some t, none⟩ (some u) = ⟨0, some u, none⟩ := by
      refine pollStep_accept_new q u hvu _ rfl ?_
      simp only [ne_eq, Option.some_inj]
      exact hch.1
    show (runPoll q
      (if (⟨c, some t, none⟩ : PollState).answer.isSome then ⟨c, some t, none⟩
       else pollTick q ⟨c, some t, none⟩ [some u]) (us.map fun v => [some v])).answer = none
    rw [if_neg (by simp)]
    show (runPoll q (pollStep q ⟨c, some t, none⟩ (some u)) (us.map fun v => [some v])).answer
      = none
    rw [hstep]
    exact ih u 0 (fun v hvmem => hv v (by simp [hvmem])) hch.2

example : askGeminiPoll "Q" ((["HelloWorldA1", "HelloWorldA2", "HelloWorldA1"]).map
    fun u => [some u]) = none := by decide

lemma runPoll_cons (q : String) (s : PollState) (tick : List (Option String))
    (rest : List (List (Option String))) :
    runPoll q s (tick :: rest) =
      runPoll q (if s.answer.isSome then s else pollTick q s tick) rest := rfl

/-! ## Claim theorems about the response polling loop -/

/-- **C8**: the response polling loop never returns a value equal to the
original submitted prompt: a sample equal to the question fails the
acceptance filter of line 196 and can never become the recorded answer. -/
theorem askGeminiPoll_never_echoes_prompt (q : String) (ticks : List (List (Option String)))
    (a : String) (h : askGeminiPoll q ticks = some a) : a ≠ q :=
  runPoll_answer_ne q ticks initPollState
    (by intro b hb; simp [initPollState] at hb) a h

/-- Witness for C8: a run that stabilises on `"HelloWorldA1"` after asking
`"Q"` indeed returned something different from the prompt. -/
theorem askGeminiPoll_never_echoes_prompt_witness :
    askGeminiPoll "Q" (List.replicate 4 [some "HelloWorldA1"]) = some "HelloWorldA1" ∧
    "HelloWorldA1" ≠ "Q" :=
  ⟨by decide, askGeminiPoll_never_echoes_prompt "Q" (List.replicate 4 [some "HelloWorldA1"])
    "HelloWorldA1" (by decide)⟩

/-- Counterexample to **C2** as stated: the spec's own example run
`["", "Hel", "Hello", "Hello", "Hello"]` is *not* stable at tick 5 — every
sample is at most 10 characters long, so all are rejected by the filter of
line 196 and the loop times out; and even a sample above the length filter
observed on 3 consecutive single-selector polls is not yet returned,
because the first observation only records `last_text` and the counter
must reach 3 afterwards. -/
theorem awaitStable_spec_example_times_out :
    askGeminiPoll "What is 2+2?"
      [[some ""], [some "Hel"], [some "Hello"], [some "Hello"], [some "Hello"]] = none ∧
    askGeminiPoll "What is 2+2?" (List.replicate 3 [some "HelloWorldA1"]) = none := by
  decide

/-- **C2** (amended): with one response selector sampled per 1-second poll,
the loop returns the sampled value exactly once an accepted sample (longer
than 10 characters, differing from the prompt) has been observed and then
confirmed identical on 3 further consecutive polls — 4 identical accepted
samples in total, not 3 — and it returns `none` (timeout) whenever the
accepted sample changes on every poll until the deadline. -/
theorem awaitStable_threshold_and_timeout (q t : String) (hv : validText q t = true) :
    askGeminiPoll q (List.replicate 4 [some t]) = some t ∧
    askGeminiPoll q (List.replicate 3 [some t]) = none ∧
    (∀ ts : List String, (∀ u ∈ ts, validText q u = true) → ts.Chain' (· ≠ ·) →
      askGeminiPoll q (ts.map fun u => [some u]) = none) := by
  refine ⟨?_, ?_, ?_⟩
  · simp [askGeminiPoll, runPoll, pollTick, pollStep, initPollState, hv, List.replicate]
  · simp [askGeminiPoll, runPoll, pollTick, pollStep, initPollState, hv, List.replicate]
  · intro ts hv' hch
    match ts with
    | [] => simp [askGeminiPoll, runPoll, initPollState]
    | t0 :: rest =>
      have hv0 : validText q t0 = true := hv' t0 (by simp)
      have h0 : pollStep q initPollState (some t0) = ⟨0, some t0, none⟩ :=
        pollStep_accept_new q t0 hv0 _ rfl (by simp [initPollState])
      show (runPoll q initPollState ([some t0] :: rest.map fun u => [some u])).answer = none
      rw [runPoll_cons, if_neg (by simp [initPollState])]
      show (runPoll q (pollStep q initPollState (some t0))
        (rest.map fun u => [some u])).answer = none
      rw [h0]
      exact runPoll_chain_ne q rest t0 0 (fun v hvm => hv' v (by simp [hvm])) hch

/-- Witness for C2 (amended): 4 identical polls of `"HelloWorldA1"` return
it; ever-changing accepted samples time out. -/
theorem awaitStable_threshold_and_timeout_witness :
    askGeminiPoll "Q" (List.replicate 4 [some "HelloWorldA1"]) = some "HelloWorldA1" ∧
    askGeminiPoll "Q" ((["HelloWorldA1", "HelloWorldA2"]).map fun u => [some u]) = none := by
  have h := awaitStable_threshold_and_timeout "Q" "HelloWorldA1" (by decide)
  exact ⟨h.1, h.2.2 ["HelloWorldA1", "HelloWorldA2"] (by decide)
    (List.Chain.cons (by decide) List.Chain.nil)⟩

/-- **C10**: `stable_count` and `last_text` are shared by all eight
response selectors within one poll iteration — each further selector whose
last element carries the currently recorded accepted text increments the
counter once (and the third increment records the answer) — so a single
tick in which 4 selectors sample the same valid text already returns it,
while 3 time-spaced single-selector polls do not. -/
theorem poll_counters_shared_across_selectors (q t : String) (hv : validText q t = true) :
    askGeminiPoll q [List.replicate 4 (some t)] = some t ∧
    askGeminiPoll q (List.replicate 3 [some t]) = none ∧
    (∀ c : Nat, c + 1 < 3 → pollStep q ⟨c, some t, none⟩ (some t) = ⟨c + 1, some t, none⟩) ∧
    (∀ c : Nat, c + 1 ≥ 3 → pollStep q ⟨c, some t, none⟩ (some t) = ⟨c + 1, some t, some t⟩) := by
  refine ⟨?_, ?_, pollStep_confirm q t hv, pollStep_finalize q t hv⟩
  · simp [askGeminiPoll, runPoll, pollTick, pollStep, initPollState, hv, List.replicate]
  · simp [askGeminiPoll, runPoll, pollTick, pollStep, initPollState, hv, List.replicate]

/-- Witness for C10 at a concrete prompt and sample. -/
theorem poll_counters_shared_across_selectors_witness :
    askGeminiPoll "Q" [List.replicate 4 (some "HelloWorldA1")] = some "HelloWorldA1" ∧
    askGeminiPoll "Q" (List.replicate 3 [some "HelloWorldA1"]) = none ∧
    pollStep "Q" ⟨1, some "HelloWorldA1", none⟩ (some "HelloWorldA1") =
      ⟨2, some "HelloWorldA1", none⟩ :=
  have h := poll_counters_shared_across_selectors "Q" "HelloWorldA1" (by decide)
  ⟨h.1, h.2.1, h.2.2.1 1 (by decide)⟩

/-! ## Claim theorems about the end-to-end text flow -/

/-- Environment of the spec's end-to-end scenario: authenticated, every
page operation succeeds, one input selector matches, and the response
region samples the text `"4"` on every 1-second poll up to the 120-second
deadline. -/
def fourEnv : AskEnv :=
  ⟨true, true, true, true, [some ()], [true], ⟨true, true, true⟩,
    List.replicate 120 [some "4"]⟩

/-- `fourEnv` with the response region sampling `"The answer is 4"`
(15 characters) on every poll instead. -/
def fourEnvLong : AskEnv :=
  { fourEnv with responseTicks := List.replicate 120 [some "The answer is 4"] }

set_option maxRecDepth 8192 in
/-- Counterexample to **C1** as stated: with prompt `"What is 2+2?"` and a
response region sampling `"4"` identically on every 1-second poll (three
and many more consecutive identical polls), `ask_gemini` never returns
`"4"` — the sample is only 1 character long and is discarded by the
`len(text) > 10` filter of line 196 — so the 120-second deadline expires,
the call returns `None` and the process exits with code 1, not 0. -/
theorem ask_gemini_answer_four_times_out :
    (ask_gemini "What is 2+2?" fourEnv).1 = none ∧
    askExitCode "What is 2+2?" fourEnv = 1 := by decide

set_option maxRecDepth 8192 in
/-- **C1** (amended): the sampled answer must be longer than 10 characters
to pass the filter of line 196; with prompt `"What is 2+2?"` and a response
region stably sampling `"The answer is 4"` on each 1-second poll,
`ask_gemini` returns that text and exits with code 0, and 4 consecutive
identical polls (about 3 seconds of polling) already suffice. -/
theorem ask_gemini_long_answer_succeeds :
    (ask_gemini "What is 2+2?" fourEnvLong).1 = some "The answer is 4" ∧
    askExitCode "What is 2+2?" fourEnvLong = 0 ∧
    askGeminiPoll "What is 2+2?" (List.replicate 4 [some "The answer is 4"]) =
      some "The answer is 4" := by decide

/-- The string `aaa...a` of 101 characters, exceeding the 100-character
threshold of `generate_image` (line 137). -/
def longPrompt : String := String.mk (List.replicate 101 'a')

/-- Counterexample to **C3** as stated: the input delivery of `ask_gemini`
(lines 140–167) never consults the text length — for the 101-character
prompt it attempts per-character typing (method 1) first and, when typing
succeeds, never attempts `fill` at all. -/
theorem deliverAsk_long_input_still_types_first :
    longPrompt.length > 100 ∧
    deliverAsk longPrompt ⟨true, true, true⟩ = ([TypingMethod.typeChars], true) ∧
    TypingMethod.typeChars ≠ TypingMethod.fill := by decide

/-- **C3** (amended): only `generate_image` prefers bulk `fill` directly
for inputs longer than 100 characters, and only when the inner input
element is found (otherwise it falls back to fast per-character typing);
`ask_gemini`'s delivery attempts per-character typing first regardless of
the input length. -/
theorem genTypeMethod_long_prompt_prefers_fill (p : String) (h : p.length > 100) :
    genTypeMethod p true = TypingMethod.fill ∧
    genTypeMethod p false = TypingMethod.typeChars ∧
    (∀ env : DeliverEnv, (deliverAsk p env).1.head? = some TypingMethod.typeChars) := by
  refine ⟨by simp [genTypeMethod, h], by simp [genTypeMethod, h], ?_⟩
  intro env
  unfold deliverAsk
  split
  · rfl
  · split
    · rfl
    · split <;> rfl

/-- Witness for C3 (amended) at the 101-character prompt. -/
theorem genTypeMethod_long_prompt_prefers_fill_witness :
    genTypeMethod longPrompt true = TypingMethod.fill ∧
    (deliverAsk longPrompt ⟨false, true, true⟩).1.head? = some TypingMethod.typeChars :=
  have h := genTypeMethod_long_prompt_prefers_fill longPrompt (by decide)
  ⟨h.1, h.2.2 ⟨false, true, true⟩⟩

/-- **C6**: the typing fallback chain of `ask_gemini` attempts method 1
(click + per-character typing) first, attempts method 2 (`fill`) exactly
when method 1 raises, attempts method 3 (scripted assignment with
dispatched events) exactly when method 2 also raises, never attempts a
later method once an earlier one succeeded, and reports failure precisely
when all three methods raised. -/
theorem deliverAsk_fallback_order (q : String) (env : DeliverEnv) :
    (env.typeOk = true → deliverAsk q env = ([TypingMethod.typeChars], true)) ∧
    (env.typeOk = false → env.fillOk = true →
      deliverAsk q env = ([TypingMethod.typeChars, TypingMethod.fill], true)) ∧
    (env.typeOk = false → env.fillOk = false → env.jsOk = true →
      deliverAsk q env =
        ([TypingMethod.typeChars, TypingMethod.fill, TypingMethod.jsAssign], true)) ∧
    ((deliverAsk q env).2 = false ↔
      env.typeOk = false ∧ env.fillOk = false ∧ env.jsOk = false) := by
  obtain ⟨t, f, j⟩ := env
  cases t <;> cases f <;> cases j <;> simp [deliverAsk]

/-- Witness for C6: with method 1 raising and method 2 succeeding, exactly
methods 1 then 2 are attempted and delivery succeeds. -/
theorem deliverAsk_fallback_order_witness :
    deliverAsk "Q" ⟨false, true, true⟩ = ([TypingMethod.typeChars, TypingMethod.fill], true) :=
  (deliverAsk_fallback_order "Q" ⟨false, true, true⟩).2.1 rfl rfl

/-- **C9**: selector resolution returns the first candidate, in declared
list order, whose bounded per-candidate wait produces a visible element
(`none` models both a per-candidate timeout and a raised error, each of
which merely moves resolution to the next candidate), even when later
candidates would also match. -/
theorem resolveFirst_priority_order {α : Type} :
    ∀ (cands : List (Option α)) (i : Nat) (h : i < cands.length) (e : α),
      cands.get ⟨i, h⟩ = some e → (∀ o ∈ cands.take i, o = none) →
      resolveFirst cands = some (i, e) := by
  intro cands
  induction cands with
  | nil => intro i h; exact absurd h (by simp)
  | cons c rest ih =>
    intro i h e he hprev
    cases i with
    | zero =>
      simp only [List.get] at he
      rw [he]
      rfl
    | succ j =>
      have hc : c = none := hprev c (by simp)
      subst hc
      have hrest : resolveFirst rest = some (j, e) := by
        refine ih j (by simpa using h) e ?_ ?_
        · simpa using he
        · intro o ho
          exact hprev o (by simp [ho])
      show (resolveFirst rest).map (fun p => (p.1 + 1, p.2)) = some (j + 1, e)
      rw [hrest]
      rfl

/-- Witness for C9: the second candidate wins when the first times out,
even though the third would also match. -/
theorem resolveFirst_priority_order_witness :
    resolveFirst [none, some 5, some 9] = some (1, 5) :=
  resolveFirst_priority_order [none, some 5, some 9] 1 (by decide) 5 (by decide)
    (by decide)

/-! ## Claim theorems about artifact retrieval -/

lemma retrieveOne_mem_retrieveArtifacts :
    ∀ (cs : List Container) (k i : Nat) (h : i < cs.length) (a : Artifact),
      retrieveOne (k + i) (cs.get ⟨i, h⟩) = some a → a ∈ retrieveArtifacts k cs := by
  intro cs
  induction cs with
  | nil => intro k i h; exact absurd h (by simp)
  | cons c rest ih =>
    intro k i h a ha
    cases i with
    | zero =>
      simp only [List.get] at ha
      rw [Nat.add_zero] at ha
      show a ∈ retrieveArtifacts k (c :: rest)
      unfold retrieveArtifacts
      rw [ha]
      exact List.mem_cons_self a _
    | succ j =>
      have hj : j < rest.length := by simpa using h
      have ha' : retrieveOne (k + 1 + j) (rest.get ⟨j, hj⟩) = some a := by
        have heq : k + (j + 1) = k + 1 + j := by omega
        rw [← heq]
        simpa using ha
      have hmem := ih (k + 1) j hj a ha'
      show a ∈ retrieveArtifacts k (c :: rest)
      unfold retrieveArtifacts
      cases hro : retrieveOne k c with
      | some b => exact List.mem_cons_of_mem b hmem
      | none => exact hmem

lemma retrieveArtifacts_eq_nil_iff :
    ∀ (cs : List Container) (k : Nat),
      retrieveArtifacts k cs = [] ↔
        ∀ (i : Nat) (h : i < cs.length), retrieveOne (k + i) (cs.get ⟨i, h⟩) = none := by
  intro cs
  induction cs with
  | nil => intro k; simp [retrieveArtifacts]
  | cons c rest ih =>
    intro k
    constructor
    · intro hnil i h
      unfold retrieveArtifacts at hnil
      cases hro : retrieveOne k c with
      | some b => rw [hro] at hnil; cases hnil
      | none =>
        rw [hro] at hnil
        cases i with
        | zero => simpa using hro
        | succ j =>
          have hj : j < rest.length := by simpa using h
          have hrj := (ih (k + 1)).1 hnil j hj
          have heq : k + (j + 1) = k + 1 + j := by omega
          show retrieveOne (k + (j + 1)) ((c :: rest).get ⟨j + 1, h⟩) = none
          rw [heq]
          simpa using hrj
    · intro hall
      unfold retrieveArtifacts
      have h0 : retrieveOne k c = none := by simpa using hall 0 (by simp)
      rw [h0]
      refine (ih (k + 1)).2 ?_
      intro j hj
      have hjj := hall (j + 1) (by simpa using Nat.succ_lt_succ hj)
      have heq : k + (j + 1) = k + 1 + j := by omega
      rw [heq] at hjj
      simpa using hjj

/-- **C5**: artifact retrieval processes the containers independently — any
container whose own processing yields an artifact (in particular one
degrading from a raising download to a screenshot) contributes it to the
returned list regardless of the other containers' failures — and the
overall call returns the saved list precisely when at least one artifact
was produced, `None` (no artifacts) otherwise. -/
theorem retrieve_partial_failure_isolation :
    (∀ (cs : List Container) (i : Nat) (h : i < cs.length) (a : Artifact),
      retrieveOne i (cs.get ⟨i, h⟩) = some a →
        ∃ l, retrieve cs = some l ∧ a ∈ l) ∧
    (∀ cs : List Container, retrieve cs = none ↔
      ∀ (i : Nat) (h : i < cs.length), retrieveOne i (cs.get ⟨i, h⟩) = none) := by
  have hiff : ∀ cs : List Container, retrieveArtifacts 0 cs = [] ↔
      ∀ (i : Nat) (h : i < cs.length), retrieveOne i (cs.get ⟨i, h⟩) = none := by
    intro cs
    have := retrieveArtifacts_eq_nil_iff cs 0
    simpa using this
  constructor
  · intro cs i h a ha
    have hmem : a ∈ retrieveArtifacts 0 cs :=
      retrieveOne_mem_retrieveArtifacts cs 0 i h a (by simpa using ha)
    have hne : (retrieveArtifacts 0 cs).isEmpty ≠ true := by
      cases hcs : retrieveArtifacts 0 cs with
      | nil => rw [hcs] at hmem; cases hmem
      | cons b l => simp
    refine ⟨retrieveArtifacts 0 cs, ?_, hmem⟩
    unfold retrieve
    rw [if_neg hne]
  · intro cs
    constructor
    · intro hnone
      refine (hiff cs).1 ?_
      by_contra hne
      have : retrieve cs = some (retrieveArtifacts 0 cs) := by
        unfold retrieve
        rw [if_neg ?_]
        intro hE
        exact hne (by simpa using List.isEmpty_iff.mp hE)
      rw [this] at hnone
      cases hnone
    · intro hall
      unfold retrieve
      rw [if_pos (List.isEmpty_iff.mpr ((hiff cs).2 hall))]

/-- The spec's 3-container scenario: containers 1 and 3 download cleanly,
container 2's download control raises but its screenshot fallback works. -/
def threeContainers : List Container :=
  [⟨true, true, true, true⟩, ⟨true, false, true, true⟩, ⟨true, true, true, true⟩]

/-- Witness for C5: in the 3-container scenario the overall result is the
downloads of containers 1 and 3 with container 2's screenshot between
them, and container 2's screenshot is in the returned list by the
independence theorem. -/
theorem retrieve_partial_failure_isolation_witness :
    retrieve threeContainers =
      some [Artifact.downloaded 0, Artifact.captured 1, Artifact.downloaded 2] ∧
    (∃ l, retrieve threeContainers = some l ∧ Artifact.captured 1 ∈ l) :=
  ⟨by decide,
   retrieve_partial_failure_isolation.1 threeContainers 1 (by decide)
     (Artifact.captured 1) (by decide)⟩

/-! ## Claim theorems about the task-level control flow -/

/-- **C4**: when the authentication check fails, both tasks return the
failure value at once — the event trace is empty, so no browser session is
launched, no selector resolved and no input delivered — and the process
exits with code 1. -/
theorem unauthenticated_immediate_failure (q p : String) (envA : AskEnv) (envG : GenEnv)
    (ha : envA.authenticated = false) (hg : envG.authenticated = false) :
    ask_gemini q envA = (none, []) ∧ askExitCode q envA = 1 ∧
    generate_image p envG = (none, []) ∧ genExitCode p envG = 1 := by
  unfold askExitCode genExitCode
  simp [ask_gemini, generate_image, ha, hg]

/-- `fourEnv` with the authentication check failing. -/
def unauthedAskEnv : AskEnv := { fourEnv with authenticated := false }

/-- A `generate_image` environment whose authentication check fails. -/
def unauthedGenEnv : GenEnv :=
  ⟨false, true, true, true, [some ()], [some ()], true, true, true,
    List.replicate 4 [some 1], [⟨true, true, true, true⟩]⟩

/-- Witness for C4 at concrete unauthenticated environments. -/
theorem unauthenticated_immediate_failure_witness :
    ask_gemini "Q" unauthedAskEnv = (none, []) ∧ askExitCode "Q" unauthedAskEnv = 1 ∧
    generate_image "P" unauthedGenEnv = (none, []) ∧ genExitCode "P" unauthedGenEnv = 1 :=
  unauthenticated_immediate_failure "Q" "P" unauthedAskEnv unauthedGenEnv rfl rfl

lemma cleanupEvents_facts (c pw : Bool) :
    Event.launchContext ∉ cleanupEvents c pw ∧
    Event.startPlaywright ∉ cleanupEvents c pw ∧
    (c = true → Event.closeContext ∈ cleanupEvents c pw) ∧
    (pw = true → Event.stopPlaywright ∈ cleanupEvents c pw) ∧
    (cleanupEvents c pw).count Event.launchContext = 0 := by
  cases c <;> cases pw <;> simp [cleanupEvents]

lemma task_trace_facts (evs : List Event) (c pw : Bool)
    (h1 : evs.count Event.launchContext ≤ 1)
    (h2 : Event.launchContext ∈ evs → c = true)
    (h3 : Event.startPlaywright ∈ evs → pw = true) :
    (evs ++ cleanupEvents c pw).count Event.launchContext ≤ 1 ∧
    (Event.launchContext ∈ evs ++ cleanupEvents c pw →
      Event.closeContext ∈ evs ++ cleanupEvents c pw) ∧
    (Event.startPlaywright ∈ evs ++ cleanupEvents c pw →
      Event.stopPlaywright ∈ evs ++ cleanupEvents c pw) := by
  have hc := cleanupEvents_facts c pw
  refine ⟨?_, ?_, ?_⟩
  · rw [List.count_append, hc.2.2.2.2]
    simpa using h1
  · intro hmem
    rcases List.mem_append.mp hmem with h | h
    · exact List.mem_append.mpr (Or.inr (hc.2.2.1 (h2 h)))
    · exact absurd h hc.1
  · intro hmem
    rcases List.mem_append.mp hmem with h | h
    · exact List.mem_append.mpr (Or.inr (hc.2.2.2.1 (h3 h)))
    · exact absurd h hc.2.1

lemma askTryBody_trace (q : String) (env : AskEnv) :
    (askTryBody q env).2.1.count Event.launchContext ≤ 1 ∧
    (Event.launchContext ∈ (askTryBody q env).2.1 → (askTryBody q env).2.2.1 = true) ∧
    (Event.startPlaywright ∈ (askTryBody q env).2.1 → (askTryBody q env).2.2.2 = true) := by
  obtain ⟨auth, sOk, lOk, gOk, ic, wc, de, rt⟩ := env
  obtain ⟨dt, df, dj⟩ := de
  unfold askTryBody deliverAsk
  cases sOk <;> cases lOk <;> cases gOk <;> cases dt <;> cases df <;> cases dj <;>
    cases hri : resolveFirst ic <;> cases hwi : wc.findIdx? (fun b => b) <;>
    simp [List.count_cons]

lemma genTryBody_trace (p : String) (env : GenEnv) :
    (genTryBody p env).2.1.count Event.launchContext ≤ 1 ∧
    (Event.launchContext ∈ (genTryBody p env).2.1 → (genTryBody p env).2.2.1 = true) ∧
    (Event.startPlaywright ∈ (genTryBody p env).2.1 → (genTryBody p env).2.2.2 = true) := by
  obtain ⟨auth, sOk, lOk, gOk, ibc, ic, aif, tOk, wOk, ticks, cts⟩ := env
  unfold genTryBody
  cases sOk <;> cases lOk <;> cases gOk <;> cases tOk <;> cases wOk <;>
    cases hri : resolveFirst ic <;> cases hgp : genPoll (ticks.take 30) <;>
    simp [List.count_cons]

/-- **C7**: on every exit path of `ask_gemini` and `generate_image` —
success, detected failure, or an exception caught by the `except` clause —
the browsing context launched inside the `try` block is closed and the
playwright driver is stopped by the `finally` block before the function
returns, and at most one context is ever launched per invocation. -/
theorem session_teardown_on_every_exit (q p : String) (envA : AskEnv) (envG : GenEnv) :
    ((ask_gemini q envA).2.count Event.launchContext ≤ 1 ∧
     (Event.launchContext ∈ (ask_gemini q envA).2 →
       Event.closeContext ∈ (ask_gemini q envA).2) ∧
     (Event.startPlaywright ∈ (ask_gemini q envA).2 →
       Event.stopPlaywright ∈ (ask_gemini q envA).2)) ∧
    ((generate_image p envG).2.count Event.launchContext ≤ 1 ∧
     (Event.launchContext ∈ (generate_image p envG).2 →
       Event.closeContext ∈ (generate_image p envG).2) ∧
     (Event.startPlaywright ∈ (generate_image p envG).2 →
       Event.stopPlaywright ∈ (generate_image p envG).2)) := by
  constructor
  · cases hauth : envA.authenticated with
    | false => simp [ask_gemini, hauth]
    | true =>
      have hbody := askTryBody_trace q envA
      have htr : (ask_gemini q envA).2 = (askTryBody q envA).2.1 ++
          cleanupEvents (askTryBody q envA).2.2.1 (askTryBody q envA).2.2.2 := by
        simp [ask_gemini, hauth]
      rw [htr]
      exact task_trace_facts _ _ _ hbody.1 hbody.2.1 hbody.2.2
  · cases hauth : envG.authenticated with
    | false => simp [generate_image, hauth]
    | true =>
      have hbody := genTryBody_trace p envG
      have htr : (generate_image p envG).2 = (genTryBody p envG).2.1 ++
          cleanupEvents (genTryBody p envG).2.2.1 (genTryBody p envG).2.2.2 := by
        simp [generate_image, hauth]
      rw [htr]
      exact task_trace_facts _ _ _ hbody.1 hbody.2.1 hbody.2.2

/-- An all-successful `ask_gemini` environment with a stable long answer. -/
def teardownAskEnv : AskEnv :=
  ⟨true, true, true, true, [some ()], [true], ⟨true, true, true⟩,
    List.replicate 4 [some "The answer is 4"]⟩

/-- An all-successful `generate_image` environment with one stable image. -/
def teardownGenEnv : GenEnv :=
  ⟨true, true, true, true, [some ()], [some ()], true, true, true,
    List.replicate 4 [some 1], [⟨true, true, true, true⟩]⟩

set_option maxRecDepth 8192 in
/-- Witness for C7: on concrete successful runs of both tasks the launched
context is closed and playwright is stopped. -/
theorem session_teardown_on_every_exit_witness :
    Event.closeContext ∈ (ask_gemini "Q" teardownAskEnv).2 ∧
    Event.stopPlaywright ∈ (ask_gemini "Q" teardownAskEnv).2 ∧
    Event.closeContext ∈ (generate_image "P" teardownGenEnv).2 ∧
    Event.stopPlaywright ∈ (generate_image "P" teardownGenEnv).2 :=
  have h := session_teardown_on_every_exit "Q" "P" teardownAskEnv teardownGenEnv
  ⟨h.1.2.1 (by decide), h.1.2.2 (by decide), h.2.2.1 (by decide), h.2.2.2 (by decide)⟩

end GoogleSkill
